import Mathlib

/-!
Verification of the SCMI clock protocol driver
(src/drivers/firmware/arm_scmi/clock.c) against its natural-language
specification.  The driver is shallowly embedded: wire words are `Nat`
with explicit mask/shift arithmetic, errno-style results are `Int`
(returned negated, as in the C source), and the transport collaborator is
modelled by small environment records carrying the outcome of each
`xfer_get_init` / `do_xfer` call together with the decoded reply fields.
-/

namespace ScmiClock

/-- Linux errno: invalid argument. -/
def EINVAL : Int := 22

/-- Linux errno: permission denied. -/
def EACCES : Int := 13

/-- Linux errno: protocol error. -/
def EPROTO : Int := 71

/-- Linux errno: operation not supported.  The SCMI core maps firmware
NOT_SUPPORTED replies to this code; it is the code matching the spec error
kind Unsupported. -/
def EOPNOTSUPP : Int := 95

/-- Linux errno: out of memory. -/
def ENOMEM : Int := 12

/-- C U32_MAX, the sentinel stored for an unknown enable latency. -/
def U32_MAX : Nat := 4294967295

/-- Kernel header macro BIT(n). -/
def BIT (n : Nat) : Nat := 2 ^ n

/-- SCMI short name buffer size in bytes (protocols.h value, includes NUL). -/
def SCMI_SHORT_NAME_MAX_SIZE : Nat := 16

/-- SCMI extended name buffer size in bytes (protocols.h value). -/
def SCMI_MAX_STR_SIZE : Nat := 64

/-- Modelled from the spec: PROTOCOL_REV_MAJOR lives in protocols.h which is
not part of this tree.  Per the spec the protocol version is a major.minor
pair; the clock source itself encodes v2.1 as 0x20001
(SCMI_PROTOCOL_SUPPORTED_VERSION), i.e. major is the high 16 bits of the
version word. -/
def PROTOCOL_REV_MAJOR (v : Nat) : Nat := (v >>> 16) &&& 0xffff

/-- Modelled from the spec: minor version, the low 16 bits of the version
word (see PROTOCOL_REV_MAJOR). -/
def PROTOCOL_REV_MINOR (v : Nat) : Nat := v &&& 0xffff

/-- enum clk_state value CLK_STATE_DISABLE. -/
def CLK_STATE_DISABLE : Nat := 0

/-- enum clk_state value CLK_STATE_ENABLE. -/
def CLK_STATE_ENABLE : Nat := 1

/-- enum clk_state value CLK_STATE_RESERVED. -/
def CLK_STATE_RESERVED : Nat := 2

/-- enum clk_state value CLK_STATE_UNCHANGED. -/
def CLK_STATE_UNCHANGED : Nat := 3

/-- NULL_OEM_TYPE sentinel of the v2 config-set message. -/
def NULL_OEM_TYPE : Nat := 0

/-- CLOCK_SET_ASYNC flag bit (BIT(0)) of the rate-set request. -/
def CLOCK_SET_ASYNC : Nat := 1

/-- Permission word bit: state control allowed (BIT(31)). -/
def CLOCK_STATE_CONTROL_ALLOWED : Nat := BIT 31

/-- Permission word bit: parent control allowed (BIT(30)). -/
def CLOCK_PARENT_CONTROL_ALLOWED : Nat := BIT 30

/-- Permission word bit: rate control allowed (BIT(29)). -/
def CLOCK_RATE_CONTROL_ALLOWED : Nat := BIT 29

/-- Attribute word bit test SUPPORTS_RATE_CHANGED_NOTIF (BIT(31)). -/
def SUPPORTS_RATE_CHANGED_NOTIF (x : Nat) : Bool := x &&& BIT 31 != 0

/-- Attribute word bit test SUPPORTS_RATE_CHANGE_REQUESTED_NOTIF (BIT(30)). -/
def SUPPORTS_RATE_CHANGE_REQUESTED_NOTIF (x : Nat) : Bool := x &&& BIT 30 != 0

/-- Attribute word bit test SUPPORTS_EXTENDED_NAMES (BIT(29)). -/
def SUPPORTS_EXTENDED_NAMES (x : Nat) : Bool := x &&& BIT 29 != 0

/-- Attribute word bit test SUPPORTS_PARENT_CLOCK (BIT(28)). -/
def SUPPORTS_PARENT_CLOCK (x : Nat) : Bool := x &&& BIT 28 != 0

/-- Attribute word bit test SUPPORTS_GET_PERMISSIONS (BIT(1)). -/
def SUPPORTS_GET_PERMISSIONS (x : Nat) : Bool := x &&& BIT 1 != 0

/-- struct scmi_clock_info: the per-domain record built at init.  The name
is a byte list (the C char array up to its NUL); rates/range model the
discrete-vs-continuous union side by side as the C struct does. -/
structure scmi_clock_info where
  name : List Nat
  enable_latency : Nat
  rate_discrete : Bool
  rates : List Nat
  range_min : Nat
  range_max : Nat
  range_step : Nat
  parents : List Nat
  rate_changed_notifications : Bool
  rate_change_requested_notifications : Bool
  rate_ctrl_forbidden : Bool
  state_ctrl_forbidden : Bool
  parent_ctrl_forbidden : Bool
  deriving DecidableEq, Repr

/-- Zero-initialised domain record (the devm_kcalloc allocation in
scmi_clock_protocol_init). -/
def clk_default : scmi_clock_info :=
  ⟨[], 0, false, [], 0, 0, 0, [], false, false, false, false, false⟩

/-- struct clock_info: the protocol instance private data.  The two stored
function pointers clock_config_set/clock_config_get are modelled by the
boolean cfg_v2 (true selects the v2 variants), dispatched via a match at
each call site. -/
structure clock_info where
  version : Nat
  num_clocks : Nat
  max_async_req : Nat
  cur_async_req : Nat
  clk : List scmi_clock_info
  cfg_v2 : Bool
  deriving DecidableEq, Repr

/-- scmi_clock_domain_lookup: reject out-of-range ids with -EINVAL,
otherwise return the domain record at that index. -/
def scmi_clock_domain_lookup (ci : clock_info) (clk_id : Nat) :
    Except Int scmi_clock_info :=
  if ci.num_clocks ≤ clk_id then .error (-EINVAL)
  else .ok (ci.clk.getD clk_id clk_default)

/-- strscpy into a buffer of sz bytes: copy at most sz - 1 bytes of src, up
to its terminating NUL. -/
def strscpy (src : List Nat) (sz : Nat) : List Nat :=
  (src.takeWhile (fun b => b != 0)).take (sz - 1)

/-- NUM_RETURNED field of the describe-rates reply flags word (low 12
bits). -/
def NUM_RETURNED (x : Nat) : Nat := x &&& 0xfff

/-- NUM_REMAINING field of the describe-rates reply flags word (high 16
bits). -/
def NUM_REMAINING (x : Nat) : Nat := x >>> 16

/-- RATE_DISCRETE flag of the describe-rates reply: discrete when BIT(12)
is clear. -/
def RATE_DISCRETE (x : Nat) : Bool := x &&& BIT 12 == 0

/-- Byte size of the fixed header of struct
scmi_msg_resp_clock_describe_rates (one __le32 flags word). -/
def describe_rates_header_sz : Nat := 4

/-- Byte size of one rate entry of the describe-rates reply (two __le32
halves). -/
def rate_entry_sz : Nat := 8

/-- Decoded num_returned / num_remaining / discrete-flag triple produced by
the describe-rates update_state step. -/
structure DescribeUpdate where
  num_returned : Nat
  num_remaining : Nat
  rate_discrete : Bool
  deriving DecidableEq, Repr

/-- iter_clk_describe_update_state: decode the counts and the discrete
flag; for a continuous-range reply that is out of spec, either apply the
known firmware quirk fix (any returned count with remaining = 0 and a raw
reply length of exactly header + 3 rate entries is corrected to returned =
3) or fail with -EPROTO. -/
def iter_clk_describe_update_state (flags rx_len : Nat) :
    Except Int DescribeUpdate :=
  let returned := NUM_RETURNED flags
  let remaining := NUM_REMAINING flags
  let discrete := RATE_DISCRETE flags
  if discrete = false ∧ (returned ≠ 3 ∨ remaining ≠ 0) then
    if returned ≠ 3 ∧ remaining = 0 ∧
        rx_len = describe_rates_header_sz + rate_entry_sz * 3 then
      .ok ⟨3, 0, discrete⟩
    else
      .error (-EPROTO)
  else
    .ok ⟨returned, remaining, discrete⟩

/-- iter_clk_describe_process_response, continuous branch: the item at
absolute index 0 / 1 / 2 is stored as min / max / step; any higher index is
-EINVAL. -/
def iter_clk_describe_process_range (clk : scmi_clock_info) (idx v : Nat) :
    Except Int scmi_clock_info :=
  if idx = 0 then .ok { clk with range_min := v }
  else if idx = 1 then .ok { clk with range_max := v }
  else if idx = 2 then .ok { clk with range_step := v }
  else .error (-EINVAL)

/-- rate_cmp_func handed to sort(): ascending u64 comparison returning
-1 / 0 / 1. -/
def rate_cmp_func (r1 r2 : Nat) : Int :=
  if r1 < r2 then -1 else if r1 = r2 then 0 else 1

/-- One insertion step of the model of the kernel sort() call: place x
before the first element y with rate_cmp_func x y ≤ 0. -/
def sort_insert (x : Nat) : List Nat → List Nat
  | [] => [x]
  | y :: ys => if rate_cmp_func x y ≤ 0 then x :: y :: ys else y :: sort_insert x ys

/-- Model of the kernel sort(rates, num, size, rate_cmp_func, NULL) call.
The kernel routine is a heapsort; any correct comparison sort produces the
same characterising result (an ascending permutation of its input), which
is what the claims state. -/
def kernel_sort : List Nat → List Nat
  | [] => []
  | x :: xs => sort_insert x (kernel_sort xs)

/-- Accumulation performed by iter_clk_describe_process_response over the
reply pages of one discrete-rate enumeration: page item loop_idx is written
at rates[desc_index + loop_idx] and desc_index advances by num_returned
after each page, so successive pages concatenate in arrival order. -/
def iter_clk_describe_drain (pages : List (List Nat)) : List Nat :=
  pages.foldl (fun acc page => acc ++ page) []

/-- Tail of scmi_clock_describe_rates_get after the iterator has drained:
sort the discrete rate list in place when it is non-empty. -/
def scmi_clock_describe_rates_finalize (discrete : Bool) (rates : List Nat) :
    List Nat :=
  if discrete then (if rates.length ≠ 0 then kernel_sort rates else rates)
  else rates

/-- Version gate at the end of scmi_clock_protocol_init selecting the
stored configuration-message variant: the v2 pair is chosen when
PROTOCOL_REV_MAJOR(version) >= 0x2 and PROTOCOL_REV_MINOR(version) >= 0x1,
the legacy pair otherwise. -/
def clock_config_selects_v2 (version : Nat) : Bool :=
  decide (2 ≤ PROTOCOL_REV_MAJOR version) &&
    decide (1 ≤ PROTOCOL_REV_MINOR version)

/-- scmi_clock_protocol_init, restricted to the state it stores: the
version, the protocol attributes, a zeroed async counter, the domain table
and the once-computed configuration variant choice. -/
def scmi_clock_protocol_init (version num_clocks max_async : Nat)
    (clks : List scmi_clock_info) : clock_info :=
  ⟨version, num_clocks, max_async, 0, clks, clock_config_selects_v2 version⟩

/-- Optional per-domain discovery steps whose execution the claims observe. -/
inductive DiscoveryAction where
  | fetchExtendedName
  | fetchParents
  | fetchPermissions
  | enumerateRates
  deriving DecidableEq, Repr

/-- Transport environment for one scmi_clock_attributes_get call: outcome of
the two transfer steps, the decoded reply fields and the outcomes of the
optional follow-up fetches. -/
structure AttrEnv where
  init_ret : Int
  xfer_ret : Int
  attributes : Nat
  name : List Nat
  clock_enable_latency : Nat
  ext_ret : Int
  ext_name : List Nat
  parents_ret : Int
  parents : List Nat
  perm_ret : Int
  perm : Nat
  deriving DecidableEq, Repr

/-- Result of one scmi_clock_attributes_get call: the returned errno, the
updated domain record and the optional discovery steps that were
performed. -/
structure AttrOut where
  ret : Int
  clk : scmi_clock_info
  actions : List DiscoveryAction
  deriving DecidableEq, Repr

/-- scmi_clock_get_permissions: on transfer success decode the permission
word and derive the three forbidden flags (a clear allowed bit forbids);
on failure leave the record untouched. -/
def scmi_clock_get_permissions (clk : scmi_clock_info) (perm_ret : Int)
    (perm : Nat) : scmi_clock_info :=
  if perm_ret = 0 then
    { clk with
      state_ctrl_forbidden := perm &&& CLOCK_STATE_CONTROL_ALLOWED == 0,
      rate_ctrl_forbidden := perm &&& CLOCK_RATE_CONTROL_ALLOWED == 0,
      parent_ctrl_forbidden := perm &&& CLOCK_PARENT_CONTROL_ALLOWED == 0 }
  else clk

/-- Base-attribute decode of scmi_clock_attributes_get on transfer
success: store the (truncated) short name and the enable latency — the
reported value is read only from protocol major version 2 on (the field
exists only since then), and a zero latency is mapped to the U32_MAX
sentinel. -/
def clk_after_base (version : Nat) (clk0 : scmi_clock_info) (env : AttrEnv) :
    scmi_clock_info :=
  let latency :=
    if 2 ≤ PROTOCOL_REV_MAJOR version then env.clock_enable_latency else 0
  { clk0 with
    name := strscpy env.name SCMI_SHORT_NAME_MAX_SIZE,
    enable_latency := if latency ≠ 0 then latency else U32_MAX }

/-- SUPPORTS_EXTENDED_NAMES refinement of scmi_clock_attributes_get:
overwrite the short name with the extended one; on fetch failure just
carry on with the short name. -/
def clk_after_ext (clk : scmi_clock_info) (env : AttrEnv) : scmi_clock_info :=
  if SUPPORTS_EXTENDED_NAMES env.attributes then
    (if env.ext_ret = 0 then
      { clk with name := strscpy env.ext_name SCMI_MAX_STR_SIZE }
    else clk)
  else clk

/-- Notification-capability refinement of scmi_clock_attributes_get: each
flag is set when its attribute bit is set, left as is otherwise. -/
def clk_after_notif (clk : scmi_clock_info) (env : AttrEnv) : scmi_clock_info :=
  { clk with
    rate_changed_notifications :=
      if SUPPORTS_RATE_CHANGED_NOTIF env.attributes then true
      else clk.rate_changed_notifications,
    rate_change_requested_notifications :=
      if SUPPORTS_RATE_CHANGE_REQUESTED_NOTIF env.attributes then true
      else clk.rate_change_requested_notifications }

/-- SUPPORTS_PARENT_CLOCK refinement of scmi_clock_attributes_get: run the
parent enumeration; its result fills the parent list on success and is
ignored on failure. -/
def clk_after_parents (clk : scmi_clock_info) (env : AttrEnv) :
    scmi_clock_info :=
  if SUPPORTS_PARENT_CLOCK env.attributes then
    (if env.parents_ret = 0 then { clk with parents := env.parents } else clk)
  else clk

/-- SUPPORTS_GET_PERMISSIONS refinement of scmi_clock_attributes_get: run
the permission fetch. -/
def clk_after_perm (clk : scmi_clock_info) (env : AttrEnv) : scmi_clock_info :=
  if SUPPORTS_GET_PERMISSIONS env.attributes then
    scmi_clock_get_permissions clk env.perm_ret env.perm
  else clk

/-- Optional fetches performed by scmi_clock_attributes_get on the
refinement path, in the order of the C source (extended name, parents,
permissions). -/
def attr_actions (env : AttrEnv) : List DiscoveryAction :=
  (if SUPPORTS_EXTENDED_NAMES env.attributes then
    [DiscoveryAction.fetchExtendedName]
  else []) ++
  (if SUPPORTS_PARENT_CLOCK env.attributes then
    [DiscoveryAction.fetchParents]
  else []) ++
  (if SUPPORTS_GET_PERMISSIONS env.attributes then
    [DiscoveryAction.fetchPermissions]
  else [])

/-- scmi_clock_attributes_get: fetch the base attributes; then, only from
protocol major version 2 on, apply in order each optional refinement the
attribute word advertises (the stages above touch pairwise disjoint
fields, so the staged composition is the C statement sequence). -/
def scmi_clock_attributes_get (version : Nat) (clk0 : scmi_clock_info)
    (env : AttrEnv) : AttrOut :=
  if env.init_ret ≠ 0 then ⟨env.init_ret, clk0, []⟩
  else if env.xfer_ret ≠ 0 then ⟨env.xfer_ret, clk0, []⟩
  else if 2 ≤ PROTOCOL_REV_MAJOR version then
    ⟨0,
      clk_after_perm
        (clk_after_parents
          (clk_after_notif (clk_after_ext (clk_after_base version clk0 env) env)
            env)
          env)
        env,
      attr_actions env⟩
  else ⟨0, clk_after_base version clk0 env, []⟩

/-- One iteration of the per-domain loop of scmi_clock_protocol_init: fetch
the attributes of a zeroed record and, exactly when that fetch succeeded,
run the (unconditional) rate enumeration for the domain. -/
def scmi_clock_domain_init (version : Nat) (env : AttrEnv) : AttrOut :=
  let out := scmi_clock_attributes_get version clk_default env
  if out.ret = 0 then
    { out with actions := out.actions ++ [DiscoveryAction.enumerateRates] }
  else out

/-- Which transfer primitive a rate-set call used for its round trip. -/
inductive XferCall where
  | sync
  | withResponse
  deriving DecidableEq, Repr

/-- Transport environment for one scmi_clock_rate_set call. -/
structure RateSetEnv where
  init_ret : Int
  xfer_ret : Int
  resp_id : Nat
  deriving DecidableEq, Repr

/-- Result of one scmi_clock_rate_set call: returned errno, final counter
value, the counter value observed while the round trip was in flight (none
when the call never reached it), the transfer primitives invoked and the
encoded request fields. -/
structure RateSetOut where
  ret : Int
  cur_async_req : Nat
  ctr_at_xfer : Option Nat
  calls : List XferCall
  sent_flags : Option Nat
  sent_id : Option Nat
  sent_low : Option Nat
  sent_high : Option Nat
  deriving DecidableEq, Repr

/-- Admission step of scmi_clock_rate_set: when max_async_req is non-zero,
atomically increment the shared counter and take the async path exactly
when the incremented value (atomic_inc_return) is still below
max_async_req. -/
def async_admission (max_async ctr : Nat) : Nat × Bool :=
  if max_async ≠ 0 then (ctr + 1, decide (ctr + 1 < max_async))
  else (ctr, false)

/-- Release step of scmi_clock_rate_set: when max_async_req is non-zero,
unconditionally decrement the shared counter after the round trip. -/
def async_release (max_async ctr : Nat) : Nat :=
  if max_async ≠ 0 then ctr - 1 else ctr

/-- scmi_clock_rate_set: validate the domain id and the rate-control
permission, acquire the transfer, run the admission step, encode the
request (flags, id, split 64-bit rate) and perform either the
wait-for-response round trip (async, with echoed-id validation) or the
plain one, then run the release step. -/
def scmi_clock_rate_set (ci : clock_info) (env : RateSetEnv)
    (clk_id rate : Nat) : RateSetOut :=
  match scmi_clock_domain_lookup ci clk_id with
  | .error e =>
    ⟨e, ci.cur_async_req, none, [], none, none, none, none⟩
  | .ok clk =>
    if clk.rate_ctrl_forbidden then
      ⟨-EACCES, ci.cur_async_req, none, [], none, none, none, none⟩
    else if env.init_ret ≠ 0 then
      ⟨env.init_ret, ci.cur_async_req, none, [], none, none, none, none⟩
    else
      let p := async_admission ci.max_async_req ci.cur_async_req
      let flags := if p.2 then CLOCK_SET_ASYNC else 0
      let ret1 :=
        if p.2 then
          (if env.xfer_ret = 0 then
            (if env.resp_id = clk_id then 0 else -EPROTO)
          else env.xfer_ret)
        else env.xfer_ret
      ⟨ret1, async_release ci.max_async_req p.1, some p.1,
        [if p.2 then XferCall.withResponse else XferCall.sync],
        some flags, some clk_id, some (rate % 2 ^ 32), some (rate / 2 ^ 32)⟩

/-- Transport environment for one configuration set/get call. -/
structure CfgEnv where
  init_ret : Int
  xfer_ret : Int
  resp_attributes : Nat
  resp_config : Nat
  resp_oem_val : Nat
  deriving DecidableEq, Repr

/-- Result of one configuration set/get call: returned errno, the number of
transport round trips performed, the encoded request attribute / OEM words
of a set, and the decoded outputs of a get (none where the caller passed
no destination or nothing was written). -/
structure CfgOut where
  ret : Int
  xfer_calls : Nat
  sent_attrs : Option Nat
  sent_oem_val : Option Nat
  enabled_out : Option Bool
  oem_val_out : Option Nat
  attributes_out : Option Nat
  deriving DecidableEq, Repr

/-- scmi_clock_config_set (legacy variant): reject states at or above
CLK_STATE_RESERVED with -EINVAL before any transfer, otherwise encode the
state word verbatim and perform one round trip.  The OEM arguments are
unused. -/
def scmi_clock_config_set (clk_id state : Nat) (env : CfgEnv) : CfgOut :=
  if CLK_STATE_RESERVED ≤ state then
    ⟨-EINVAL, 0, none, none, none, none, none⟩
  else if env.init_ret ≠ 0 then
    ⟨env.init_ret, 0, none, none, none, none, none⟩
  else
    ⟨env.xfer_ret, 1, some state, none, none, none, none⟩

/-- scmi_clock_config_set_v2: reject CLK_STATE_RESERVED, and the invalid
combination of a zero OEM type with CLK_STATE_UNCHANGED, with -EINVAL
before any transfer; otherwise pack the OEM type into bits 16..23 and the
state into bits 0..1 of the attribute word, carry the OEM value only for a
non-zero OEM type, and perform one round trip. -/
def scmi_clock_config_set_v2 (clk_id state oem_type oem_val : Nat)
    (env : CfgEnv) : CfgOut :=
  if state = CLK_STATE_RESERVED ∨ (oem_type = 0 ∧ state = CLK_STATE_UNCHANGED) then
    ⟨-EINVAL, 0, none, none, none, none, none⟩
  else if env.init_ret ≠ 0 then
    ⟨env.init_ret, 0, none, none, none, none, none⟩
  else
    ⟨env.xfer_ret, 1,
      some (((oem_type &&& 0xff) <<< 16) ||| (state &&& 3)),
      some (if oem_type ≠ 0 then oem_val else 0),
      none, none, none⟩

/-- scmi_clock_config_get (legacy variant): a caller that wants no enabled
output gets -EINVAL before any transfer; otherwise reuse the
CLOCK_ATTRIBUTES message and report bit 0 of the attribute word as the
enabled state.  OEM type and the attribute / OEM destinations are
ignored. -/
def scmi_clock_config_get (clk_id oem_type : Nat)
    (want_attrs want_enabled want_oem : Bool) (env : CfgEnv) : CfgOut :=
  if want_enabled = false then
    ⟨-EINVAL, 0, none, none, none, none, none⟩
  else if env.init_ret ≠ 0 then
    ⟨env.init_ret, 0, none, none, none, none, none⟩
  else if env.xfer_ret ≠ 0 then
    ⟨env.xfer_ret, 1, none, none, none, none, none⟩
  else
    ⟨0, 1, none, none, some (env.resp_attributes &&& 1 != 0), none, none⟩

/-- scmi_clock_config_get_v2: always performs the round trip; on success
fill each requested destination, the OEM value only when the OEM type is
non-zero. -/
def scmi_clock_config_get_v2 (clk_id oem_type : Nat)
    (want_attrs want_enabled want_oem : Bool) (env : CfgEnv) : CfgOut :=
  if env.init_ret ≠ 0 then
    ⟨env.init_ret, 0, none, none, none, none, none⟩
  else if env.xfer_ret ≠ 0 then
    ⟨env.xfer_ret, 1, none, none, none, none, none⟩
  else
    ⟨0, 1, none, none,
      (if want_enabled then some (env.resp_config &&& 1 != 0) else none),
      (if want_oem ∧ oem_type ≠ 0 then some env.resp_oem_val else none),
      (if want_attrs then some env.resp_attributes else none)⟩

/-- Dispatch through the configuration-set strategy stored at init
(ci.clock_config_set in the C source). -/
def clock_config_set_dispatch (ci : clock_info)
    (clk_id state oem_type oem_val : Nat) (env : CfgEnv) : CfgOut :=
  if ci.cfg_v2 then scmi_clock_config_set_v2 clk_id state oem_type oem_val env
  else scmi_clock_config_set clk_id state env

/-- Dispatch through the configuration-get strategy stored at init
(ci.clock_config_get in the C source). -/
def clock_config_get_dispatch (ci : clock_info) (clk_id oem_type : Nat)
    (want_attrs want_enabled want_oem : Bool) (env : CfgEnv) : CfgOut :=
  if ci.cfg_v2 then
    scmi_clock_config_get_v2 clk_id oem_type want_attrs want_enabled want_oem env
  else
    scmi_clock_config_get clk_id oem_type want_attrs want_enabled want_oem env

/-- scmi_clock_config_oem_set: dispatch a CLK_STATE_UNCHANGED
configuration-set through the stored variant with the given OEM type and
value. -/
def scmi_clock_config_oem_set (ci : clock_info) (clk_id oem_type oem_val : Nat)
    (env : CfgEnv) : CfgOut :=
  clock_config_set_dispatch ci clk_id CLK_STATE_UNCHANGED oem_type oem_val env

/-- scmi_clock_config_oem_get: dispatch through the stored get variant with
attribute and OEM-value destinations but no enabled destination. -/
def scmi_clock_config_oem_get (ci : clock_info) (clk_id oem_type : Nat)
    (env : CfgEnv) : CfgOut :=
  clock_config_get_dispatch ci clk_id oem_type true false true env

/-- scmi_clock_state_get: dispatch through the stored get variant with only
the enabled destination and the NULL OEM type. -/
def scmi_clock_state_get (ci : clock_info) (clk_id : Nat) (env : CfgEnv) :
    CfgOut :=
  clock_config_get_dispatch ci clk_id NULL_OEM_TYPE false true false env

/-- scmi_clock_enable: look the domain up (id range only), reject a
forbidden state control with -EACCES, then dispatch CLK_STATE_ENABLE with
the NULL OEM type through the stored set variant. -/
def scmi_clock_enable (ci : clock_info) (clk_id : Nat) (env : CfgEnv) :
    CfgOut :=
  match scmi_clock_domain_lookup ci clk_id with
  | .error e => ⟨e, 0, none, none, none, none, none⟩
  | .ok clk =>
    if clk.state_ctrl_forbidden then
      ⟨-EACCES, 0, none, none, none, none, none⟩
    else
      clock_config_set_dispatch ci clk_id CLK_STATE_ENABLE NULL_OEM_TYPE 0 env

/-- scmi_clock_info_get: absent (none) for an out-of-range id and for a
domain whose stored name is the empty string (leading NUL). -/
def scmi_clock_info_get (ci : clock_info) (clk_id : Nat) :
    Option scmi_clock_info :=
  match scmi_clock_domain_lookup ci clk_id with
  | .error _ => none
  | .ok clk => if clk.name.headD 0 = 0 then none else some clk

/-- Result of one scmi_clock_set_parent call: returned errno, number of
transport round trips, and the encoded request (domain id and
firmware-visible parent id). -/
structure ParentSetOut where
  ret : Int
  xfer_calls : Nat
  sent_id : Option Nat
  sent_parent : Option Nat
  deriving DecidableEq, Repr

/-- scmi_clock_set_parent: look the domain up, reject an out-of-range
parent selector with -EINVAL and a forbidden parent control with -EACCES,
both before any transfer; otherwise encode the domain id together with the
selected entry of the domain parent list (not the selector) and perform
one round trip. -/
def scmi_clock_set_parent (ci : clock_info) (env : CfgEnv)
    (clk_id parent_sel : Nat) : ParentSetOut :=
  match scmi_clock_domain_lookup ci clk_id with
  | .error e => ⟨e, 0, none, none⟩
  | .ok clk =>
    if clk.parents.length ≤ parent_sel then ⟨-EINVAL, 0, none, none⟩
    else if clk.parent_ctrl_forbidden then ⟨-EACCES, 0, none, none⟩
    else if env.init_ret ≠ 0 then ⟨env.init_ret, 0, none, none⟩
    else ⟨env.xfer_ret, 1, some clk_id, some (clk.parents.getD parent_sel 0)⟩

/-! Helper lemmas about the kernel sort model. -/

theorem rate_cmp_le_iff (x y : Nat) : rate_cmp_func x y ≤ 0 ↔ x ≤ y := by
  unfold rate_cmp_func
  split_ifs with h1 h2 <;> constructor <;> intro h <;> omega

theorem sort_insert_perm (x : Nat) (l : List Nat) :
    (sort_insert x l).Perm (x :: l) := by
  induction l with
  | nil => simp [sort_insert]
  | cons y ys ih =>
    unfold sort_insert
    split_ifs with h
    · exact List.Perm.refl _
    · exact (ih.cons y).trans (List.Perm.swap x y ys)

theorem kernel_sort_perm (l : List Nat) : (kernel_sort l).Perm l := by
  induction l with
  | nil => simp [kernel_sort]
  | cons x xs ih =>
    exact (sort_insert_perm x (kernel_sort xs)).trans (ih.cons x)

theorem sort_insert_sorted (x : Nat) (l : List Nat)
    (h : l.Sorted (fun a b => a ≤ b)) :
    (sort_insert x l).Sorted (fun a b => a ≤ b) := by
  induction l with
  | nil => simp [sort_insert]
  | cons y ys ih =>
    rw [List.sorted_cons] at h
    unfold sort_insert
    split_ifs with hc
    · rw [List.sorted_cons]
      have hxy : x ≤ y := (rate_cmp_le_iff x y).mp hc
      refine ⟨?_, ?_⟩
      · intro b hb
        rcases List.mem_cons.mp hb with rfl | hb2
        · exact hxy
        · exact le_trans hxy (h.1 b hb2)
      · rw [List.sorted_cons]
        exact h
    · rw [List.sorted_cons]
      have hyx : y ≤ x := by
        have hnot : ¬x ≤ y := fun hle => hc ((rate_cmp_le_iff x y).mpr hle)
        omega
      refine ⟨?_, ih h.2⟩
      intro b hb
      have hmem := (sort_insert_perm x ys).mem_iff.mp hb
      rcases List.mem_cons.mp hmem with rfl | hb2
      · exact hyx
      · exact h.1 b hb2

theorem kernel_sort_sorted (l : List Nat) :
    (kernel_sort l).Sorted (fun a b => a ≤ b) := by
  induction l with
  | nil => simp [kernel_sort]
  | cons x xs ih => exact sort_insert_sorted x (kernel_sort xs) ih

/-- Claim C9: after a successful rate enumeration of a discrete-rate
domain, the stored rate list is sorted ascending and is a permutation of
the multiset of rate values received from the firmware (the concatenation,
in arrival order, of the reply pages drained by the iterator); duplicates
are preserved, only the order is normalized. -/
theorem C9_rates_sorted_perm (pages : List (List Nat)) :
    (scmi_clock_describe_rates_finalize true
        (iter_clk_describe_drain pages)).Sorted (fun a b => a ≤ b) ∧
    (scmi_clock_describe_rates_finalize true
        (iter_clk_describe_drain pages)).Perm (iter_clk_describe_drain pages) := by
  have key : ∀ rates : List Nat,
      (scmi_clock_describe_rates_finalize true rates).Sorted (fun a b => a ≤ b) ∧
      (scmi_clock_describe_rates_finalize true rates).Perm rates := by
    intro rates
    unfold scmi_clock_describe_rates_finalize
    by_cases h : rates.length ≠ 0
    · rw [if_pos rfl, if_pos h]
      exact ⟨kernel_sort_sorted rates, kernel_sort_perm rates⟩
    · rw [if_pos rfl, if_neg h]
      have hnil : rates = [] := by
        rcases rates with _ | ⟨a, tl⟩
        · rfl
        · simp at h
      subst hnil
      exact ⟨List.sorted_nil, List.Perm.refl _⟩
  exact key (iter_clk_describe_drain pages)

/-- Claim C2 (code bug): the stored configuration-variant choice is
computed once at init by clock_config_selects_v2, but that check demands
major ≥ 2 and minor ≥ 1 simultaneously, so the negotiated version 3.0
(word 0x30000) — which is at or above 2.1 in major.minor order, its major
exceeding 2 — selects the legacy variant, while 2.1 (word 0x20001) selects
v2 as the claim expects. -/
theorem C2_version_gate_bug :
    (scmi_clock_protocol_init 0x30000 1 0 [clk_default]).cfg_v2 = false ∧
    2 < PROTOCOL_REV_MAJOR 0x30000 ∧
    (scmi_clock_protocol_init 0x20001 1 0 [clk_default]).cfg_v2 = true := by
  decide

/-- Claim C3 counterexample: a continuous-range describe-rates reply with
returned = 2, remaining = 0 (flags word 0x1002, bit 12 set) and a raw
length of exactly header + 3 rate entries (28 bytes) is corrected to
returned = 3 and accepted by the quirk fix — it is not rejected with
-EPROTO as the claim states. -/
theorem C3_counterexample :
    iter_clk_describe_update_state 0x1002 28 = .ok ⟨3, 0, false⟩ ∧
    iter_clk_describe_update_state 0x1002 28 ≠ .error (-EPROTO) := by
  have hok : iter_clk_describe_update_state 0x1002 28 = .ok ⟨3, 0, false⟩ := by
    rfl
  refine ⟨hok, ?_⟩
  rw [hok]
  intro hcontra
  exact Except.noConfusion hcontra

/-- Claim C3 amended: for a continuous-range reply the update step accepts
(as the corrected triplet shape, returned = 3 and remaining = 0) exactly
the replies with remaining = 0 whose returned count is either already 3 or
whose raw length is exactly header + 3 rate entries — the quirk fix
applies to any wrong returned count, 1 and 2 alike; every other
continuous-range reply is rejected with -EPROTO, abandoning that domain
enumeration.  The accepted triplet is then stored as (min, max, step) by
the process step at absolute indices 0, 1, 2. -/
theorem C3_quirk_amended (flags rx_len : Nat)
    (hcont : RATE_DISCRETE flags = false) :
    (iter_clk_describe_update_state flags rx_len = .ok ⟨3, 0, false⟩ ↔
      (NUM_REMAINING flags = 0 ∧
        (NUM_RETURNED flags = 3 ∨
          rx_len = describe_rates_header_sz + rate_entry_sz * 3))) ∧
    (iter_clk_describe_update_state flags rx_len = .ok ⟨3, 0, false⟩ ∨
      iter_clk_describe_update_state flags rx_len = .error (-EPROTO)) ∧
    (∀ (clk : scmi_clock_info) (a b c : Nat),
      (iter_clk_describe_process_range clk 0 a).bind
          (fun k => (iter_clk_describe_process_range k 1 b).bind
            (fun k2 => iter_clk_describe_process_range k2 2 c)) =
        .ok { clk with range_min := a, range_max := b, range_step := c }) := by
  refine ⟨?_, ?_, ?_⟩
  · simp only [iter_clk_describe_update_state, hcont]
    split_ifs with h1 h2 <;> simp_all <;> omega
  · simp only [iter_clk_describe_update_state, hcont]
    split_ifs with h1 h2 <;> simp_all
  · intro clk a b c
    rfl

/-- Claim C3 amended, witness: a continuous-range reply with returned = 1,
remaining = 0 (flags word 0x1001) and raw length 28 is corrected to the
accepted triplet shape. -/
theorem C3_quirk_amended_witness :
    iter_clk_describe_update_state 0x1001 28 = .ok ⟨3, 0, false⟩ := by
  exact ((C3_quirk_amended 0x1001 28 (by decide)).1).mpr (by decide)

/-- Claim C1 counterexample: with max_async_requests = 1 and the shared
counter at 0 before the call — so the claim (pre-increment value 0 below
the max 1) demands the async path — the code compares the post-increment
value (1 < 1 fails) and takes the synchronous path, with a clear
CLOCK_SET_ASYNC bit in the encoded request. -/
theorem C1_counterexample :
    (0 : Nat) < 1 ∧
    (scmi_clock_rate_set ⟨0x20001, 1, 1, 0, [clk_default], true⟩
        ⟨0, 0, 0⟩ 0 5).sent_flags = some 0 ∧
    (scmi_clock_rate_set ⟨0x20001, 1, 1, 0, [clk_default], true⟩
        ⟨0, 0, 0⟩ 0 5).calls = [XferCall.sync] := by
  decide

/-- Claim C1 amended: in set_rate, the async flag is set (and the
CLOCK_SET_ASYNC bit encoded, and the wait-for-response round trip used) if
and only if max_async_requests > 0 and the post-increment value of the
shared counter (atomic_inc_return) is below max_async_requests; with the
counter at k before the call, the async path is taken exactly when
k + 1 < max_async_requests, so up to max_async_requests - 1 outstanding
calls receive the async path and the max_async_requests-th receives the
synchronous path. -/
theorem C1_async_flag_amended (ci : clock_info) (env : RateSetEnv)
    (clk_id rate : Nat)
    (hid : clk_id < ci.num_clocks)
    (hperm : (ci.clk.getD clk_id clk_default).rate_ctrl_forbidden = false)
    (hinit : env.init_ret = 0) :
    ((scmi_clock_rate_set ci env clk_id rate).sent_flags = some CLOCK_SET_ASYNC ∧
      (scmi_clock_rate_set ci env clk_id rate).calls = [XferCall.withResponse]) ↔
    (0 < ci.max_async_req ∧ ci.cur_async_req + 1 < ci.max_async_req) := by
  unfold scmi_clock_rate_set scmi_clock_domain_lookup
  rw [if_neg (by omega : ¬ci.num_clocks ≤ clk_id)]
  simp only [hperm]
  rw [if_neg (by simp : ¬false = true)]
  rw [if_neg (by simp [hinit] : ¬env.init_ret ≠ 0)]
  unfold async_admission
  by_cases hmax : ci.max_async_req = 0
  · rw [if_neg (by simp [hmax] : ¬ci.max_async_req ≠ 0)]
    simp [CLOCK_SET_ASYNC, hmax]
  · rw [if_pos (by simp [hmax] : ci.max_async_req ≠ 0)]
    by_cases hlt : ci.cur_async_req + 1 < ci.max_async_req
    · simp [CLOCK_SET_ASYNC, hlt]
      omega
    · simp [CLOCK_SET_ASYNC, hlt]

/-- Claim C1 amended, witness: with max_async_requests = 3 and the counter
at 0, the async path is taken (post-increment value 1 is below 3). -/
theorem C1_async_flag_amended_witness :
    (scmi_clock_rate_set ⟨0x20001, 1, 3, 0, [clk_default], true⟩
        ⟨0, 0, 0⟩ 0 5).sent_flags = some CLOCK_SET_ASYNC ∧
    (scmi_clock_rate_set ⟨0x20001, 1, 3, 0, [clk_default], true⟩
        ⟨0, 0, 0⟩ 0 5).calls = [XferCall.withResponse] := by
  exact (C1_async_flag_amended ⟨0x20001, 1, 3, 0, [clk_default], true⟩
    ⟨0, 0, 0⟩ 0 5 (by decide) (by decide) rfl).mpr (by decide)

/-- Claim C4 counterexample: the admission increment and the release
decrement of two concurrent rate-set calls can interleave so that both
increments run before either release (the admission check is advisory, not
a lock); with max_async_requests = 1 the shared counter then holds 2,
outside [0, 1], refuting the unconditional bound of the claim. -/
theorem C4_counterexample :
    (async_admission 1 (async_admission 1 0).1).1 = 2 ∧
    1 < (async_admission 1 (async_admission 1 0).1).1 := by
  decide

/-- Claim C4 amended: when max_async_requests > 0, every set_rate call
that reaches the transport round trip increments the shared counter by
exactly one for the duration of the round trip and decrements it exactly
once afterwards on every exit path (success, transport failure, or
echoed-id protocol error), so after the call completes the counter equals
its value before the call; consequently the counter stays within
[0, max_async_requests] while at most max_async_requests calls are
concurrently in flight (the value observed during a call whose pre-call
counter is below the max is at most the max), though an unbounded number
of concurrent calls can exceed the bound. -/
theorem C4_counter_balance_amended (ci : clock_info) (env : RateSetEnv)
    (clk_id rate : Nat)
    (hid : clk_id < ci.num_clocks)
    (hperm : (ci.clk.getD clk_id clk_default).rate_ctrl_forbidden = false)
    (hinit : env.init_ret = 0)
    (hmax : 0 < ci.max_async_req) :
    (scmi_clock_rate_set ci env clk_id rate).cur_async_req = ci.cur_async_req ∧
    (scmi_clock_rate_set ci env clk_id rate).ctr_at_xfer =
      some (ci.cur_async_req + 1) ∧
    (ci.cur_async_req < ci.max_async_req →
      ∀ c, (scmi_clock_rate_set ci env clk_id rate).ctr_at_xfer = some c →
        c ≤ ci.max_async_req) := by
  unfold scmi_clock_rate_set scmi_clock_domain_lookup
  rw [if_neg (by omega : ¬ci.num_clocks ≤ clk_id)]
  simp only [hperm]
  rw [if_neg (by simp : ¬false = true)]
  rw [if_neg (by simp [hinit] : ¬env.init_ret ≠ 0)]
  unfold async_admission async_release
  rw [if_pos (by omega : ci.max_async_req ≠ 0),
    if_pos (by omega : ci.max_async_req ≠ 0)]
  refine ⟨by simp, by simp, ?_⟩
  intro hpre c hc
  simp only [Option.some.injEq] at hc
  omega

/-- Claim C4 amended, witness: with max_async_requests = 2 and the counter
at 1, a successful call leaves the counter at 1 again and held 2 during
the round trip. -/
theorem C4_counter_balance_amended_witness :
    (scmi_clock_rate_set ⟨0x20001, 1, 2, 1, [clk_default], true⟩
        ⟨0, 0, 0⟩ 0 5).cur_async_req = 1 ∧
    (scmi_clock_rate_set ⟨0x20001, 1, 2, 1, [clk_default], true⟩
        ⟨0, 0, 0⟩ 0 5).ctr_at_xfer = some 2 := by
  have h := C4_counter_balance_amended ⟨0x20001, 1, 2, 1, [clk_default], true⟩
    ⟨0, 0, 0⟩ 0 5 (by decide) (by decide) rfl (by decide)
  exact ⟨h.1, h.2.1⟩

/-! Projection lemmas: each refinement stage touches only its own
fields. -/

theorem clk_after_ext_preserves (clk : scmi_clock_info) (env : AttrEnv) :
    (clk_after_ext clk env).enable_latency = clk.enable_latency ∧
    (clk_after_ext clk env).rate_changed_notifications =
      clk.rate_changed_notifications ∧
    (clk_after_ext clk env).rate_change_requested_notifications =
      clk.rate_change_requested_notifications := by
  unfold clk_after_ext
  split_ifs <;> exact ⟨rfl, rfl, rfl⟩

theorem clk_after_notif_preserves (clk : scmi_clock_info) (env : AttrEnv) :
    (clk_after_notif clk env).enable_latency = clk.enable_latency :=
  rfl

theorem clk_after_notif_flags (clk : scmi_clock_info) (env : AttrEnv) :
    (clk_after_notif clk env).rate_changed_notifications =
      (if SUPPORTS_RATE_CHANGED_NOTIF env.attributes then true
      else clk.rate_changed_notifications) ∧
    (clk_after_notif clk env).rate_change_requested_notifications =
      (if SUPPORTS_RATE_CHANGE_REQUESTED_NOTIF env.attributes then true
      else clk.rate_change_requested_notifications) :=
  ⟨rfl, rfl⟩

theorem clk_after_parents_preserves (clk : scmi_clock_info) (env : AttrEnv) :
    (clk_after_parents clk env).enable_latency = clk.enable_latency ∧
    (clk_after_parents clk env).rate_changed_notifications =
      clk.rate_changed_notifications ∧
    (clk_after_parents clk env).rate_change_requested_notifications =
      clk.rate_change_requested_notifications := by
  unfold clk_after_parents
  split_ifs <;> exact ⟨rfl, rfl, rfl⟩

theorem clk_after_perm_preserves (clk : scmi_clock_info) (env : AttrEnv) :
    (clk_after_perm clk env).enable_latency = clk.enable_latency ∧
    (clk_after_perm clk env).rate_changed_notifications =
      clk.rate_changed_notifications ∧
    (clk_after_perm clk env).rate_change_requested_notifications =
      clk.rate_change_requested_notifications := by
  unfold clk_after_perm scmi_clock_get_permissions
  split_ifs <;> exact ⟨rfl, rfl, rfl⟩

theorem attributes_get_success_v2 (version : Nat) (clk0 : scmi_clock_info)
    (env : AttrEnv) (hinit : env.init_ret = 0) (hxfer : env.xfer_ret = 0)
    (hmaj : 2 ≤ PROTOCOL_REV_MAJOR version) :
    (scmi_clock_attributes_get version clk0 env).clk =
      clk_after_perm
        (clk_after_parents
          (clk_after_notif (clk_after_ext (clk_after_base version clk0 env) env)
            env)
          env)
        env ∧
    (scmi_clock_attributes_get version clk0 env).actions = attr_actions env ∧
    (scmi_clock_attributes_get version clk0 env).ret = 0 := by
  unfold scmi_clock_attributes_get
  rw [if_neg (by simp [hinit] : ¬env.init_ret ≠ 0),
    if_neg (by simp [hxfer] : ¬env.xfer_ret ≠ 0), if_pos hmaj]
  exact ⟨rfl, rfl, rfl⟩

theorem attributes_get_success_v1 (version : Nat) (clk0 : scmi_clock_info)
    (env : AttrEnv) (hinit : env.init_ret = 0) (hxfer : env.xfer_ret = 0)
    (hmaj : ¬2 ≤ PROTOCOL_REV_MAJOR version) :
    (scmi_clock_attributes_get version clk0 env).clk =
      clk_after_base version clk0 env ∧
    (scmi_clock_attributes_get version clk0 env).actions = [] ∧
    (scmi_clock_attributes_get version clk0 env).ret = 0 := by
  unfold scmi_clock_attributes_get
  rw [if_neg (by simp [hinit] : ¬env.init_ret ≠ 0),
    if_neg (by simp [hxfer] : ¬env.xfer_ret ≠ 0), if_neg hmaj]
  exact ⟨rfl, rfl, rfl⟩

theorem domain_init_actions (version : Nat) (env : AttrEnv)
    (h : (scmi_clock_attributes_get version clk_default env).ret = 0) :
    (scmi_clock_domain_init version env).actions =
      (scmi_clock_attributes_get version clk_default env).actions ++
        [DiscoveryAction.enumerateRates] ∧
    (scmi_clock_domain_init version env).clk =
      (scmi_clock_attributes_get version clk_default env).clk := by
  unfold scmi_clock_domain_init
  rw [if_pos h]
  exact ⟨rfl, rfl⟩

/-- Claim C5 counterexample: with protocol version 1.0 (word 0x10000) and
an attribute word advertising every feature (bits 31, 30, 29, 28 and 1 all
set, word 4026531842), a successful base-attribute fetch performs no
optional refinement at all — the extended-names bit is set yet no
extended-name fetch happens and the notification flags stay false —
because every refinement is additionally gated on protocol major
version ≥ 2; only the unconditional rate enumeration runs. -/
theorem C5_counterexample :
    SUPPORTS_EXTENDED_NAMES 4026531842 = true ∧
    (scmi_clock_domain_init 0x10000
        ⟨0, 0, 4026531842, [65], 7, 0, [66], 0, [1], 0, 0⟩).ret = 0 ∧
    (scmi_clock_domain_init 0x10000
        ⟨0, 0, 4026531842, [65], 7, 0, [66], 0, [1], 0, 0⟩).actions =
      [DiscoveryAction.enumerateRates] ∧
    (scmi_clock_domain_init 0x10000
        ⟨0, 0, 4026531842, [65], 7, 0, [66], 0, [1], 0, 0⟩).clk.rate_changed_notifications
      = false := by
  decide

/-- Claim C5 amended: during per-domain discovery, after a successful
base-attribute fetch and provided the protocol major version is at least 2,
each optional refinement is performed if and only if the corresponding
feature bit of the attribute word is set (extended name iff bit 29, the
two notification-capability flags equal bits 31 and 30, parent enumeration
iff bit 28, permission fetch iff bit 1); when the major version is below 2
no refinement is performed regardless of the attribute word; rate
enumeration runs unconditionally for every domain whose base attributes
were fetched. -/
theorem C5_refinements_amended (version : Nat) (env : AttrEnv)
    (hinit : env.init_ret = 0) (hxfer : env.xfer_ret = 0) :
    (2 ≤ PROTOCOL_REV_MAJOR version →
      ((DiscoveryAction.fetchExtendedName ∈
          (scmi_clock_domain_init version env).actions) ↔
        SUPPORTS_EXTENDED_NAMES env.attributes = true) ∧
      ((DiscoveryAction.fetchParents ∈
          (scmi_clock_domain_init version env).actions) ↔
        SUPPORTS_PARENT_CLOCK env.attributes = true) ∧
      ((DiscoveryAction.fetchPermissions ∈
          (scmi_clock_domain_init version env).actions) ↔
        SUPPORTS_GET_PERMISSIONS env.attributes = true) ∧
      (scmi_clock_domain_init version env).clk.rate_changed_notifications =
        SUPPORTS_RATE_CHANGED_NOTIF env.attributes ∧
      (scmi_clock_domain_init version env).clk.rate_change_requested_notifications =
        SUPPORTS_RATE_CHANGE_REQUESTED_NOTIF env.attributes) ∧
    (PROTOCOL_REV_MAJOR version < 2 →
      (scmi_clock_domain_init version env).actions =
        [DiscoveryAction.enumerateRates]) ∧
    DiscoveryAction.enumerateRates ∈ (scmi_clock_domain_init version env).actions := by
  refine ⟨?_, ?_, ?_⟩
  · intro hmaj
    obtain ⟨hclk2, hacts2, hret2⟩ :=
      attributes_get_success_v2 version clk_default env hinit hxfer hmaj
    obtain ⟨hacts, hclk⟩ := domain_init_actions version env hret2
    rw [hacts, hclk, hacts2, hclk2]
    refine ⟨?_, ?_, ?_, ?_, ?_⟩
    · unfold attr_actions
      cases he : SUPPORTS_EXTENDED_NAMES env.attributes <;>
        cases hp : SUPPORTS_PARENT_CLOCK env.attributes <;>
          cases hg : SUPPORTS_GET_PERMISSIONS env.attributes <;>
            simp [he, hp, hg]
    · unfold attr_actions
      cases he : SUPPORTS_EXTENDED_NAMES env.attributes <;>
        cases hp : SUPPORTS_PARENT_CLOCK env.attributes <;>
          cases hg : SUPPORTS_GET_PERMISSIONS env.attributes <;>
            simp [he, hp, hg]
    · unfold attr_actions
      cases he : SUPPORTS_EXTENDED_NAMES env.attributes <;>
        cases hp : SUPPORTS_PARENT_CLOCK env.attributes <;>
          cases hg : SUPPORTS_GET_PERMISSIONS env.attributes <;>
            simp [he, hp, hg]
    · rw [(clk_after_perm_preserves _ _).2.1,
        (clk_after_parents_preserves _ _).2.1, (clk_after_notif_flags _ _).1,
        (clk_after_ext_preserves _ _).2.1]
      cases h31 : SUPPORTS_RATE_CHANGED_NOTIF env.attributes <;>
        simp [h31, clk_after_base, clk_default]
    · rw [(clk_after_perm_preserves _ _).2.2,
        (clk_after_parents_preserves _ _).2.2, (clk_after_notif_flags _ _).2,
        (clk_after_ext_preserves _ _).2.2]
      cases h30 : SUPPORTS_RATE_CHANGE_REQUESTED_NOTIF env.attributes <;>
        simp [h30, clk_after_base, clk_default]
  · intro hmaj
    obtain ⟨hclk2, hacts2, hret2⟩ :=
      attributes_get_success_v1 version clk_default env hinit hxfer (by omega)
    obtain ⟨hacts, hclk⟩ := domain_init_actions version env hret2
    rw [hacts, hacts2]
    rfl
  · by_cases hmaj : 2 ≤ PROTOCOL_REV_MAJOR version
    · obtain ⟨hclk2, hacts2, hret2⟩ :=
        attributes_get_success_v2 version clk_default env hinit hxfer hmaj
      obtain ⟨hacts, hclk⟩ := domain_init_actions version env hret2
      rw [hacts]
      simp
    · obtain ⟨hclk2, hacts2, hret2⟩ :=
        attributes_get_success_v1 version clk_default env hinit hxfer hmaj
      obtain ⟨hacts, hclk⟩ := domain_init_actions version env hret2
      rw [hacts, hacts2]
      simp

/-- Claim C5 amended, witness: at version 2.1 with only the extended-names
bit set (word 0x20000000), the extended name is fetched, no parent or
permission fetch runs, and rate enumeration runs. -/
theorem C5_refinements_amended_witness :
    (DiscoveryAction.fetchExtendedName ∈
      (scmi_clock_domain_init 0x20001
        ⟨0, 0, 0x20000000, [65], 7, 0, [66], 0, [1], 0, 0⟩).actions) ∧
    DiscoveryAction.enumerateRates ∈
      (scmi_clock_domain_init 0x20001
        ⟨0, 0, 0x20000000, [65], 7, 0, [66], 0, [1], 0, 0⟩).actions := by
  have h := C5_refinements_amended 0x20001
    ⟨0, 0, 0x20000000, [65], 7, 0, [66], 0, [1], 0, 0⟩ rfl rfl
  exact ⟨((h.1 (by decide)).1).mpr (by decide), h.2.2⟩

/-- Claim C6 counterexample: on the v2 path, get_oem_config with OEM type
0 is not rejected at all — it performs the transport round trip and
succeeds, merely leaving the OEM-value destination unfilled; and on the
legacy path, set_oem_config fails with -EINVAL (the InvalidArgument code),
not with -EOPNOTSUPP (the code matching the spec error kind
Unsupported). -/
theorem C6_counterexample :
    (scmi_clock_config_oem_get ⟨0x20001, 1, 0, 0, [clk_default], true⟩ 0 0
        ⟨0, 0, 9, 1, 5⟩).ret = 0 ∧
    (scmi_clock_config_oem_get ⟨0x20001, 1, 0, 0, [clk_default], true⟩ 0 0
        ⟨0, 0, 9, 1, 5⟩).xfer_calls = 1 ∧
    (scmi_clock_config_oem_set ⟨0x10000, 1, 0, 0, [clk_default], false⟩ 0 5 7
        ⟨0, 0, 9, 1, 5⟩).ret = -EINVAL ∧
    -EINVAL ≠ -EOPNOTSUPP := by
  decide

/-- Claim C6 amended: on the legacy (pre-2.1) path both OEM operations are
rejected with -EINVAL (InvalidArgument, not Unsupported) without any
transport call — set_oem_config because the CLK_STATE_UNCHANGED state is
at or above CLK_STATE_RESERVED, get_oem_config because it passes no
enabled destination; on the v2 path set_oem_config with OEM type 0 is
rejected with -EINVAL without any transport call (OEM type 0 combined with
the unchanged state is an invalid combination), but get_oem_config with
OEM type 0 is not rejected: it performs the round trip, returns the
transport result and leaves the OEM-value destination unfilled. -/
theorem C6_oem_config_amended (ci : clock_info) (clk_id oem_type oem_val : Nat)
    (env : CfgEnv) (hinit : env.init_ret = 0) :
    (ci.cfg_v2 = false →
      scmi_clock_config_oem_set ci clk_id oem_type oem_val env =
        ⟨-EINVAL, 0, none, none, none, none, none⟩ ∧
      scmi_clock_config_oem_get ci clk_id oem_type env =
        ⟨-EINVAL, 0, none, none, none, none, none⟩) ∧
    (ci.cfg_v2 = true → oem_type = 0 →
      scmi_clock_config_oem_set ci clk_id oem_type oem_val env =
        ⟨-EINVAL, 0, none, none, none, none, none⟩ ∧
      (scmi_clock_config_oem_get ci clk_id oem_type env).xfer_calls = 1 ∧
      (scmi_clock_config_oem_get ci clk_id oem_type env).ret = env.xfer_ret ∧
      (scmi_clock_config_oem_get ci clk_id oem_type env).oem_val_out = none) := by
  constructor
  · intro hlegacy
    unfold scmi_clock_config_oem_set scmi_clock_config_oem_get
      clock_config_set_dispatch clock_config_get_dispatch
      scmi_clock_config_set scmi_clock_config_get
    rw [hlegacy]
    simp [CLK_STATE_UNCHANGED, CLK_STATE_RESERVED]
  · intro hv2 hoem
    unfold scmi_clock_config_oem_set scmi_clock_config_oem_get
      clock_config_set_dispatch clock_config_get_dispatch
      scmi_clock_config_set_v2 scmi_clock_config_get_v2
    rw [hv2]
    by_cases hx : env.xfer_ret = 0 <;>
      simp_all [CLK_STATE_UNCHANGED, CLK_STATE_RESERVED]

/-- Claim C6 amended, witness: on the v2 path with OEM type 0 and a
successful transport, get_oem_config performs exactly one round trip and
returns 0. -/
theorem C6_oem_config_amended_witness :
    (scmi_clock_config_oem_get ⟨0x20001, 1, 0, 0, [clk_default], true⟩ 0 0
        ⟨0, 0, 9, 1, 5⟩).xfer_calls = 1 ∧
    (scmi_clock_config_oem_set ⟨0x20001, 1, 0, 0, [clk_default], true⟩ 0 0 7
        ⟨0, 0, 9, 1, 5⟩).xfer_calls = 0 := by
  have h := (C6_oem_config_amended ⟨0x20001, 1, 0, 0, [clk_default], true⟩
    0 0 7 ⟨0, 0, 9, 1, 5⟩ rfl).2 rfl rfl
  refine ⟨h.2.1, ?_⟩
  rw [h.1]

/-- Claim C7 counterexample: a domain with a zero-length name is absent
for info_get, yet scmi_clock_enable on that very domain is not rejected:
the shared domain lookup checks only the id range, so the call reaches the
transport and succeeds. -/
theorem C7_counterexample :
    scmi_clock_info_get ⟨0x20001, 1, 0, 0, [clk_default], false⟩ 0 = none ∧
    (scmi_clock_enable ⟨0x20001, 1, 0, 0, [clk_default], false⟩ 0
        ⟨0, 0, 0, 0, 0⟩).ret = 0 ∧
    (scmi_clock_enable ⟨0x20001, 1, 0, 0, [clk_default], false⟩ 0
        ⟨0, 0, 0, 0, 0⟩).xfer_calls = 1 := by
  decide

/-- Claim C7 amended: info(id) returns absent exactly when the id is out
of [0, clock_count) or the domain record at that id has an empty name; the
other operations share a lookup that rejects only out-of-range ids, so a
well-formed zero-length-name domain is not rejected by them — for example
enable on such a domain (state control allowed, transfer acquired) still
performs its transport round trip. -/
theorem C7_lookup_amended (ci : clock_info) (clk_id : Nat) (env : CfgEnv)
    (hinit : env.init_ret = 0) :
    (scmi_clock_info_get ci clk_id = none ↔
      (ci.num_clocks ≤ clk_id ∨
        (ci.clk.getD clk_id clk_default).name.headD 0 = 0)) ∧
    (clk_id < ci.num_clocks →
      (ci.clk.getD clk_id clk_default).state_ctrl_forbidden = false →
      (scmi_clock_enable ci clk_id env).xfer_calls = 1) := by
  constructor
  · unfold scmi_clock_info_get scmi_clock_domain_lookup
    by_cases hr : ci.num_clocks ≤ clk_id
    · rw [if_pos hr]
      simp [hr]
    · rw [if_neg hr]
      by_cases hn : (ci.clk.getD clk_id clk_default).name.headD 0 = 0
      · simp [hn, hr]
      · simp [hn, hr]
  · intro hid hforb
    unfold scmi_clock_enable scmi_clock_domain_lookup
    rw [if_neg (by omega : ¬ci.num_clocks ≤ clk_id)]
    simp only [hforb]
    rw [if_neg (by simp : ¬false = true)]
    unfold clock_config_set_dispatch scmi_clock_config_set_v2
      scmi_clock_config_set
    by_cases hv : ci.cfg_v2 = true
    · rw [if_pos hv]
      rw [if_neg (by simp [CLK_STATE_ENABLE, CLK_STATE_RESERVED,
        CLK_STATE_UNCHANGED, NULL_OEM_TYPE])]
      rw [if_neg (by simp [hinit] : ¬env.init_ret ≠ 0)]
    · rw [if_neg hv]
      rw [if_neg (by simp [CLK_STATE_ENABLE, CLK_STATE_RESERVED] :
        ¬CLK_STATE_RESERVED ≤ CLK_STATE_ENABLE)]
      rw [if_neg (by simp [hinit] : ¬env.init_ret ≠ 0)]

/-- Claim C7 amended, witness: a one-domain table whose domain is named
"A" — info_get finds it, and enable performs its round trip. -/
theorem C7_lookup_amended_witness :
    ¬(scmi_clock_info_get
        ⟨0x20001, 1, 0, 0,
          [⟨[65], 0, false, [], 0, 0, 0, [], false, false, false, false, false⟩],
          false⟩ 0 = none) ∧
    (scmi_clock_enable
        ⟨0x20001, 1, 0, 0,
          [⟨[65], 0, false, [], 0, 0, 0, [], false, false, false, false, false⟩],
          false⟩ 0 ⟨0, 0, 0, 0, 0⟩).xfer_calls = 1 := by
  have h := C7_lookup_amended
    ⟨0x20001, 1, 0, 0,
      [⟨[65], 0, false, [], 0, 0, 0, [], false, false, false, false, false⟩],
      false⟩ 0 ⟨0, 0, 0, 0, 0⟩ rfl
  refine ⟨?_, h.2 (by decide) (by decide)⟩
  intro hcontra
  have := h.1.mp hcontra
  revert this
  decide

/-- Claim C8: for every domain d and selector s, set_parent(d, s) with s
at or beyond the length of the domain parent list returns -EINVAL without
issuing any transport call; with a valid selector and parent control
allowed (and the transfer acquired), the encoded request carries
parents[d][s] — the firmware-visible parent domain id — not the selector
itself, alongside the domain id, in one round trip. -/
theorem C8_set_parent (ci : clock_info) (env : CfgEnv) (clk_id sel : Nat)
    (hid : clk_id < ci.num_clocks) :
    ((ci.clk.getD clk_id clk_default).parents.length ≤ sel →
      scmi_clock_set_parent ci env clk_id sel = ⟨-EINVAL, 0, none, none⟩) ∧
    (sel < (ci.clk.getD clk_id clk_default).parents.length →
      (ci.clk.getD clk_id clk_default).parent_ctrl_forbidden = false →
      env.init_ret = 0 →
      (scmi_clock_set_parent ci env clk_id sel).sent_parent =
        some ((ci.clk.getD clk_id clk_default).parents.getD sel 0) ∧
      (scmi_clock_set_parent ci env clk_id sel).xfer_calls = 1 ∧
      (scmi_clock_set_parent ci env clk_id sel).sent_id = some clk_id) := by
  have heq : scmi_clock_set_parent ci env clk_id sel =
      (if (ci.clk.getD clk_id clk_default).parents.length ≤ sel then
        ⟨-EINVAL, 0, none, none⟩
      else if (ci.clk.getD clk_id clk_default).parent_ctrl_forbidden then
        ⟨-EACCES, 0, none, none⟩
      else if env.init_ret ≠ 0 then ⟨env.init_ret, 0, none, none⟩
      else ⟨env.xfer_ret, 1, some clk_id,
        some ((ci.clk.getD clk_id clk_default).parents.getD sel 0)⟩) := by
    unfold scmi_clock_set_parent scmi_clock_domain_lookup
    rw [if_neg (by omega : ¬ci.num_clocks ≤ clk_id)]
  rw [heq]
  constructor
  · intro hlen
    rw [if_pos hlen]
  · intro hsel hforb hinit
    rw [if_neg (by omega :
      ¬(ci.clk.getD clk_id clk_default).parents.length ≤ sel)]
    rw [if_neg (by rw [hforb]; simp :
      ¬(ci.clk.getD clk_id clk_default).parent_ctrl_forbidden = true)]
    rw [if_neg (by simp [hinit] : ¬env.init_ret ≠ 0)]
    exact ⟨rfl, rfl, rfl⟩

/-- Claim C8, witness: a domain with parent list [7, 9] — selector 5 is
rejected with -EINVAL and no transport call, selector 1 encodes parent id
9 (not 1). -/
theorem C8_set_parent_witness :
    scmi_clock_set_parent
        ⟨0x20001, 1, 0, 0,
          [⟨[65], 0, false, [], 0, 0, 0, [7, 9], false, false, false, false, false⟩],
          false⟩ ⟨0, 0, 0, 0, 0⟩ 0 5 = ⟨-EINVAL, 0, none, none⟩ ∧
    (scmi_clock_set_parent
        ⟨0x20001, 1, 0, 0,
          [⟨[65], 0, false, [], 0, 0, 0, [7, 9], false, false, false, false, false⟩],
          false⟩ ⟨0, 0, 0, 0, 0⟩ 0 1).sent_parent = some 9 := by
  refine ⟨(C8_set_parent
      ⟨0x20001, 1, 0, 0,
        [⟨[65], 0, false, [], 0, 0, 0, [7, 9], false, false, false, false, false⟩],
        false⟩ ⟨0, 0, 0, 0, 0⟩ 0 5 (by decide)).1 (by decide), ?_⟩
  exact ((C8_set_parent
      ⟨0x20001, 1, 0, 0,
        [⟨[65], 0, false, [], 0, 0, 0, [7, 9], false, false, false, false, false⟩],
        false⟩ ⟨0, 0, 0, 0, 0⟩ 0 1 (by decide)).2 (by decide) (by decide) rfl).1

/-- Claim C10: after a successful base-attribute fetch, the stored
enable_latency is the firmware-reported latency when that value is
non-zero and the protocol major version is at least 2, and the U32_MAX
sentinel otherwise — a reported latency of exactly 0, or any major version
below 2, yields the sentinel. -/
theorem C10_enable_latency (version : Nat) (clk0 : scmi_clock_info)
    (env : AttrEnv)
    (h : (scmi_clock_attributes_get version clk0 env).ret = 0) :
    (scmi_clock_attributes_get version clk0 env).clk.enable_latency =
      if 2 ≤ PROTOCOL_REV_MAJOR version ∧ env.clock_enable_latency ≠ 0 then
        env.clock_enable_latency
      else U32_MAX := by
  by_cases hi : env.init_ret = 0
  · by_cases hx : env.xfer_ret = 0
    · by_cases hmaj : 2 ≤ PROTOCOL_REV_MAJOR version
      · obtain ⟨hclk2, _, _⟩ :=
          attributes_get_success_v2 version clk0 env hi hx hmaj
        rw [hclk2, (clk_after_perm_preserves _ _).1,
          (clk_after_parents_preserves _ _).1, clk_after_notif_preserves,
          (clk_after_ext_preserves _ _).1]
        simp only [clk_after_base]
        rw [if_pos hmaj]
        by_cases hl : env.clock_enable_latency = 0 <;> simp [hl, hmaj]
      · obtain ⟨hclk2, _, _⟩ :=
          attributes_get_success_v1 version clk0 env hi hx hmaj
        rw [hclk2]
        simp only [clk_after_base]
        rw [if_neg hmaj]
        simp [hmaj]
    · exfalso
      unfold scmi_clock_attributes_get at h
      rw [if_neg (by simp [hi] : ¬env.init_ret ≠ 0), if_pos hx] at h
      exact hx h
  · exfalso
    unfold scmi_clock_attributes_get at h
    rw [if_pos hi] at h
    exact hi h

/-- Claim C10, witness: at version 2.1 with a reported latency of 7 the
stored value is 7; the hypothesis (a successful fetch) is discharged on a
zero-errno environment. -/
theorem C10_enable_latency_witness :
    (scmi_clock_attributes_get 0x20001 clk_default
        ⟨0, 0, 0, [65], 7, 0, [66], 0, [1], 0, 0⟩).clk.enable_latency = 7 := by
  have h := C10_enable_latency 0x20001 clk_default
    ⟨0, 0, 0, [65], 7, 0, [66], 0, [1], 0, 0⟩ (by decide)
  rw [h]
  decide

end ScmiClock
